import Mathlib

/-!
Shallow embedding of the repository's single source file, the notebook
`notebooks/hlca_lung_gpu_analysis-visualization.ipynb`.

The notebook is a linear script: it loads a single-cell RNA count matrix,
filters cells and genes, normalizes, log-transforms, selects highly variable
genes, regresses out confounders, scales, then runs PCA, nearest-neighbor
graph construction, UMAP and Louvain clustering, and finally launches an
interactive dashboard with a re-clustering callback.  Every computational
step is a call into an external library (scanpy, anndata, cudf, cupy, cuml,
rapids_scanpy_funcs, visualize).  The embedding therefore abstracts each
external operation as a field of an `ExtLib` record whose operations may
fail (`Except String`), and renders the notebook as an ordered list of
cells, each of which invokes a fixed list of external calls and transforms
the notebook's variable state.  Machine floats are rendered as rationals;
the device/host placement of arrays (cupy vs numpy) is a memory-layout
detail that the embedding deliberately ignores.
-/

namespace HLCA

/-- A dense rendering of the count matrix: a list of rows of rationals.
Rows are cells, columns are genes. -/
abbrev Mat := List (List Rat)

/-- The neighbor graph produced by `sc.pp.neighbors` (connectivities). -/
abbrev Graph := List (List Rat)

/-- The annotated data object (`anndata.AnnData`): the matrix `X` plus
per-gene names, per-cell names (barcodes), per-cell columns (`obs`),
per-cell embeddings (`obsm`), the neighbor graph and the Louvain labels
written by `sc.pp.neighbors` / `sc.tl.louvain`. -/
structure AnnData where
  X : Mat
  var_names : List String
  obs_names : List String
  obs : List (String × List Rat)
  obsm : List (String × Mat)
  nbrs : Option Graph
  louvain : Option (List Nat)
  deriving DecidableEq

/-- Parameter cell of the notebook: prefix string for ribosomal genes. -/
def RIBO_GENE_PFX : String := "RPS"

/-- Parameter cell: marker genes for visualization. -/
def markers : List String := ["ACE2", "TMPRSS2", "EPCAM"]

/-- Parameter cell: cells with fewer expressed genes are filtered out. -/
def min_genes_per_cell : Nat := 200

/-- Parameter cell: cells with more expressed genes are filtered out. -/
def max_genes_per_cell : Nat := 6000

/-- Parameter cell: number of highly variable genes to retain. -/
def n_top_genes : Nat := 5000

/-- Parameter cell: number of principal components to compute. -/
def n_components : Nat := 50

/-- Parameter cell: number of nearest neighbors for the KNN graph. -/
def n_neighbors : Nat := 15

/-- Parameter cell: number of principal components for nearest neighbors. -/
def knn_n_pcs : Nat := 50

/-- Parameter cell: UMAP min_dist. -/
def umap_min_dist : Rat := 3/10

/-- Parameter cell: UMAP spread. -/
def umap_spread : Rat := 1

/-- Argument of `rapids_scanpy_funcs.normalize_total` (1e4). -/
def target_sum : Rat := 10000

/-- Argument of `rapids_scanpy_funcs.scale` (cutoff of 10 std deviations). -/
def max_value : Rat := 10

/-- Fixed input path of the notebook. -/
def input_file : String := "../data/krasnow_hlca_10x.sparse.h5ad"

/-- Fixed S3 URL the input is downloaded from when absent. -/
def download_url : String :=
  "https://rapids-single-cell-examples.s3.us-east-2.amazonaws.com/krasnow_hlca_10x.sparse.h5ad"

/-- One event per external library invocation, recording the configuration
arguments the notebook passes (data arguments are not part of the event). -/
inductive ExtCall
  | readCall (path : String)
  | filterCellsCall (minGenes maxGenes : Nat)
  | filterGenesCall (minCells : Nat)
  | normalizeCall (targetSum : Rat)
  | log1pCall
  | hvgCall (nTop : Nat) (flavor : String)
  | regressOutCall
  | scaleCall (maxValue : Rat)
  | pcaCall (nComponents : Nat)
  | neighborsCall (nNeighbors nPcs : Nat) (method : String)
  | umapCall (minDist spread : Rat) (method : String)
  | louvainCall (flavor : String)
  | plotCall (color : String)
  | visualizeCall
  | exportCall
  deriving DecidableEq

/-- The external libraries the notebook calls into.  Every operation may
raise, which the embedding renders as `Except String`. -/
structure ExtLib where
  read : String → Except String AnnData
  filter_cells : Mat → Nat → Nat → List String → Except String (Mat × List String)
  filter_genes : Mat → List String → Nat → Except String (Mat × List String)
  normalize_total : Mat → Rat → Except String Mat
  log1p : Mat → Except String Mat
  highly_variable_genes : AnnData → Nat → String → Except String (List Bool)
  regress_out : Mat → List Rat → List Rat → Except String Mat
  scale : Mat → Rat → Except String Mat
  pca : Mat → Nat → Except String Mat
  neighbors : AnnData → Nat → Nat → String → Except String Graph
  umap : AnnData → Rat → Rat → String → Except String Mat
  louvain : AnnData → String → Except String (List Nat)
  plotUmap : AnnData → String → Except String Unit

/-- Sum of a list of rationals (`X.sum(axis=1)` per row). -/
def sumList (l : List Rat) : Rat := l.foldl (fun a b => a + b) 0

/-- Boolean-mask selection, as in `adata[:, mask]` column selection or
boolean indexing of a series. -/
def applyMask : List Bool → List α → List α
  | f :: fs, x :: xs => if f then x :: applyMask fs xs else applyMask fs xs
  | _, _ => []

/-- Sum of the entries of a row selected by a boolean mask
(`X[:, ribo_genes].sum(axis=1)` per row). -/
def maskedRowSum (flags : List Bool) (row : List Rat) : Rat :=
  sumList (applyMask flags row)

/-- Row sums of a matrix (`n_counts = adata.X.sum(axis=1)`). -/
def nCountsOf (X : Mat) : List Rat := X.map sumList

/-- `ribo_genes = adata.var_names.str.startswith(RIBO_GENE_PREFIX)`. -/
def riboFlags (g : List String) : List Bool :=
  g.map (fun s => s.startsWith RIBO_GENE_PFX)

/-- `percent_ribo = (adata.X[:, ribo_genes].sum(axis=1) / n_counts)`. -/
def pctRibo (X : Mat) (flags : List Bool) : List Rat :=
  List.zipWith (fun row nc => maskedRowSum flags row / nc) X (nCountsOf X)

/-- Column `i` of a matrix, as produced by `tmp_norm[:, i].todense().ravel()`. -/
def colOf (m : Mat) (i : Nat) : List Rat := m.map (fun row => row.getD i 0)

/-- The index set `genes[genes == marker].index`: positions of the series
whose value equals the marker, in increasing order. -/
def eqIndices (genes : List String) (marker : String) : List Nat :=
  (List.range genes.length).filter (fun i => genes.getD i "" == marker)

/-- The capture loop of the notebook:
`raw_marker_expressions[marker] = tmp_norm[:, genes[genes == marker].index[0]].todense().ravel()`
for each marker in order; indexing `.index[0]` on an empty match set raises
an IndexError, which aborts the loop at the first missing marker. -/
def captureMarkersRun (genes : List String) (m : Mat) : List String → Except String (List (List Rat))
  | [] => .ok []
  | mk :: rest =>
    match eqIndices genes mk with
    | [] => .error "IndexError: list index out of range"
    | i :: _ =>
      match captureMarkersRun genes m rest with
      | .error e => .error e
      | .ok cols => .ok (colOf m i :: cols)

/-- Default observation names an `anndata.AnnData(X)` constructor assigns
(stringified row positions). -/
def defObsNames (n : Nat) : List String := (List.range n).map (fun i => toString i)

/-- The AnnData built in the notebook cell
`adata = anndata.AnnData(sparse_gpu_array.get()); adata.var_names = genes.to_pandas()`. -/
def preAd (m : Mat) (g : List String) : AnnData :=
  { X := m, var_names := g, obs_names := defObsNames m.length
  , obs := [], obsm := [], nbrs := none, louvain := none }

/-- Column subsetting `adata = adata[:, adata.var.highly_variable]`. -/
def sliceCols (a : AnnData) (flags : List Bool) : AnnData :=
  { a with X := a.X.map (fun row => applyMask flags row)
         , var_names := applyMask flags a.var_names }

/-- Assignment `adata.obsm[key] = v`. -/
def setObsm (a : AnnData) (key : String) (v : Mat) : AnnData :=
  { a with obsm := (key, v) :: a.obsm }

/-- The neighbor-graph write performed by `sc.pp.neighbors`. -/
def setNbrs (a : AnnData) (g : Graph) : AnnData := { a with nbrs := some g }

/-- The cluster-label write performed by `sc.tl.louvain`. -/
def setLouvain (a : AnnData) (l : List Nat) : AnnData := { a with louvain := some l }

/-- The AnnData built in the notebook cell
`adata = anndata.AnnData(sparse_gpu_array.get()); adata.var_names = genes;
adata.obs_names = barcodes.to_pandas();
for marker in markers: adata.obs[marker + "_raw"] = raw_marker_expressions[marker].get()`. -/
def finalAd (m : Mat) (g bc : List String) (cols : List (List Rat)) : AnnData :=
  { X := m, var_names := g, obs_names := bc
  , obs := (markers.zip cols).map (fun p => (p.1 ++ "_raw", p.2))
  , obsm := [], nbrs := none, louvain := none }

/-- The notebook's variable state: the working sparse matrix, the gene and
barcode series, the current AnnData object, and the captured raw marker
expression columns (in the order of `markers`). -/
structure NBState where
  adata : AnnData
  genes : List String
  barcodes : List String
  sparse : Mat
  rawMarkers : List (List Rat)
  deriving DecidableEq

/-- State before any cell runs (all variables undefined; the load cell
overwrites everything). -/
def st0 : NBState :=
  ⟨⟨[], [], [], [], [], none, none⟩, [], [], [], []⟩

/-- One notebook cell: the fixed list of external calls it issues and its
effect on the notebook state (possibly an uncaught exception). -/
structure Cell where
  calls : List ExtCall
  run : NBState → Except String NBState

/-- Sequential execution of notebook cells: each cell's calls are appended
to the trace; an uncaught exception aborts the run with the error value
unchanged. -/
def runCells : List Cell → NBState → Except String NBState × List ExtCall
  | [], st => (.ok st, [])
  | c :: cs, st =>
    match c.run st with
    | .error e => (.error e, c.calls)
    | .ok st' => ((runCells cs st').1, c.calls ++ (runCells cs st').2)

/-- Cell `adata = sc.read(input_file)` together with
`genes = cudf.Series(adata.var_names); barcodes = cudf.Series(adata.obs_names);
sparse_gpu_array = cp.sparse.csr_matrix(adata.X)`. -/
def loadCell (ext : ExtLib) : Cell :=
  { calls := [.readCall input_file]
  , run := fun _ =>
      (ext.read input_file).map (fun ad =>
        ⟨ad, ad.var_names, ad.obs_names, ad.X, []⟩) }

/-- Cell `sparse_gpu_array, barcodes = rapids_scanpy_funcs.filter_cells(...)`. -/
def filterCellsCell (ext : ExtLib) : Cell :=
  { calls := [.filterCellsCall min_genes_per_cell max_genes_per_cell]
  , run := fun st =>
      (ext.filter_cells st.sparse min_genes_per_cell max_genes_per_cell st.barcodes).map
        (fun p => { st with sparse := p.1, barcodes := p.2 }) }

/-- Cell `sparse_gpu_array, genes = rapids_scanpy_funcs.filter_genes(sparse_gpu_array, genes, min_cells=1)`. -/
def filterGenesCell (ext : ExtLib) : Cell :=
  { calls := [.filterGenesCall 1]
  , run := fun st =>
      (ext.filter_genes st.sparse st.genes 1).map
        (fun p => { st with sparse := p.1, genes := p.2 }) }

/-- Cell `sparse_gpu_array = rapids_scanpy_funcs.normalize_total(sparse_gpu_array, target_sum=1e4)`. -/
def normalizeCell (ext : ExtLib) : Cell :=
  { calls := [.normalizeCall target_sum]
  , run := fun st =>
      (ext.normalize_total st.sparse target_sum).map
        (fun m => { st with sparse := m }) }

/-- Cell `sparse_gpu_array = sparse_gpu_array.log1p()`. -/
def log1pCell (ext : ExtLib) : Cell :=
  { calls := [.log1pCall]
  , run := fun st =>
      (ext.log1p st.sparse).map (fun m => { st with sparse := m }) }

/-- Cell `adata = anndata.AnnData(sparse_gpu_array.get()); adata.var_names = genes.to_pandas()`. -/
def makeAdataCell : Cell :=
  { calls := []
  , run := fun st => .ok { st with adata := preAd st.sparse st.genes } }

/-- Cell `sc.pp.highly_variable_genes(adata, n_top_genes=n_top_genes, flavor="cell_ranger");
adata = adata[:, adata.var.highly_variable]`. -/
def hvgCell (ext : ExtLib) : Cell :=
  { calls := [.hvgCall n_top_genes "cell_ranger"]
  , run := fun st =>
      (ext.highly_variable_genes st.adata n_top_genes "cell_ranger").map
        (fun flags => { st with adata := sliceCols st.adata flags }) }

/-- Cell `tmp_norm = sparse_gpu_array.tocsc(); for marker in markers:
raw_marker_expressions[marker] = tmp_norm[:, genes[genes == marker].index[0]].todense().ravel()`. -/
def captureCell : Cell :=
  { calls := []
  , run := fun st =>
      (captureMarkersRun st.genes st.sparse markers).map
        (fun cols => { st with rawMarkers := cols }) }

/-- Cells `genes = adata.var_names; ribo_genes = adata.var_names.str.startswith(...);
n_counts = adata.X.sum(axis=1); percent_ribo = ...;
sparse_gpu_array = rapids_scanpy_funcs.regress_out(sparse_gpu_array, n_counts, percent_ribo)`. -/
def regressCell (ext : ExtLib) : Cell :=
  { calls := [.regressOutCall]
  , run := fun st =>
      (ext.regress_out st.adata.X (nCountsOf st.adata.X)
          (pctRibo st.adata.X (riboFlags st.adata.var_names))).map
        (fun m => { st with sparse := m, genes := st.adata.var_names }) }

/-- Cell `sparse_gpu_array = rapids_scanpy_funcs.scale(sparse_gpu_array, max_value=10)`. -/
def scaleCell (ext : ExtLib) : Cell :=
  { calls := [.scaleCall max_value]
  , run := fun st =>
      (ext.scale st.sparse max_value).map (fun m => { st with sparse := m }) }

/-- Cell `adata = anndata.AnnData(sparse_gpu_array.get()); adata.var_names = genes;
adata.obs_names = barcodes.to_pandas(); for marker in markers: adata.obs[...] = ...`. -/
def finalAdataCell : Cell :=
  { calls := []
  , run := fun st =>
      .ok { st with adata := finalAd st.sparse st.genes st.barcodes st.rawMarkers } }

/-- Cell `adata.obsm["X_pca"] = PCA(n_components=n_components, output_type="numpy").fit_transform(adata.X)`. -/
def pcaCell (ext : ExtLib) : Cell :=
  { calls := [.pcaCall n_components]
  , run := fun st =>
      (ext.pca st.adata.X n_components).map
        (fun p => { st with adata := setObsm st.adata "X_pca" p }) }

/-- Cell `sc.pp.neighbors(adata, n_neighbors=n_neighbors, n_pcs=knn_n_pcs, method='rapids')`. -/
def neighborsCell (ext : ExtLib) : Cell :=
  { calls := [.neighborsCall n_neighbors knn_n_pcs "rapids"]
  , run := fun st =>
      (ext.neighbors st.adata n_neighbors knn_n_pcs "rapids").map
        (fun g => { st with adata := setNbrs st.adata g }) }

/-- Cell `sc.tl.umap(adata, min_dist=umap_min_dist, spread=umap_spread, method='rapids')`. -/
def umapCell (ext : ExtLib) : Cell :=
  { calls := [.umapCall umap_min_dist umap_spread "rapids"]
  , run := fun st =>
      (ext.umap st.adata umap_min_dist umap_spread "rapids").map
        (fun u => { st with adata := setObsm st.adata "X_umap" u }) }

/-- Cell `sc.tl.louvain(adata, flavor='rapids')`. -/
def louvainCell (ext : ExtLib) : Cell :=
  { calls := [.louvainCall "rapids"]
  , run := fun st =>
      (ext.louvain st.adata "rapids").map
        (fun l => { st with adata := setLouvain st.adata l }) }

/-- Cell `sc.pl.umap(adata, color=["louvain"])`. -/
def plotCell (ext : ExtLib) : Cell :=
  { calls := [.plotCall "louvain"]
  , run := fun st => (ext.plotUmap st.adata "louvain").map (fun _ => st) }

/-- The notebook's main pipeline, in cell order. -/
def pipelineCells (ext : ExtLib) : List Cell :=
  [loadCell ext, filterCellsCell ext, filterGenesCell ext, normalizeCell ext,
   log1pCell ext, makeAdataCell, hvgCell ext, captureCell, regressCell ext,
   scaleCell ext, finalAdataCell, pcaCell ext, neighborsCell ext,
   umapCell ext, louvainCell ext, plotCell ext]

/-- The fixed sequence of external calls a successful main-pipeline run
issues. -/
def mainCalls : List ExtCall :=
  [.readCall input_file,
   .filterCellsCall min_genes_per_cell max_genes_per_cell,
   .filterGenesCall 1,
   .normalizeCall target_sum,
   .log1pCall,
   .hvgCall n_top_genes "cell_ranger",
   .regressOutCall,
   .scaleCall max_value,
   .pcaCall n_components,
   .neighborsCall n_neighbors knn_n_pcs "rapids",
   .umapCall umap_min_dist umap_spread "rapids",
   .louvainCall "rapids",
   .plotCall "louvain"]

/-- The four external calls issued by the `re_cluster` callback. -/
def reClusterCalls : List ExtCall :=
  [.pcaCall n_components,
   .neighborsCall n_neighbors knn_n_pcs "rapids",
   .umapCall umap_min_dist umap_spread "rapids",
   .louvainCall "rapids"]

/-- The notebook's `re_cluster` function: re-runs PCA, KNN graph, UMAP and
Louvain clustering on the given AnnData object and returns it (mutated). -/
def re_cluster (ext : ExtLib) (adata : AnnData) :
    Except String AnnData × List ExtCall :=
  match ext.pca adata.X n_components with
  | .error e => (.error e, [.pcaCall n_components])
  | .ok p =>
    match ext.neighbors (setObsm adata "X_pca" p) n_neighbors knn_n_pcs "rapids" with
    | .error e =>
      (.error e, [.pcaCall n_components, .neighborsCall n_neighbors knn_n_pcs "rapids"])
    | .ok g =>
      match ext.umap (setNbrs (setObsm adata "X_pca" p) g)
          umap_min_dist umap_spread "rapids" with
      | .error e =>
        (.error e, [.pcaCall n_components, .neighborsCall n_neighbors knn_n_pcs "rapids",
                    .umapCall umap_min_dist umap_spread "rapids"])
      | .ok u =>
        match ext.louvain
            (setObsm (setNbrs (setObsm adata "X_pca" p) g) "X_umap" u)
            "rapids" with
        | .error e => (.error e, reClusterCalls)
        | .ok l =>
          (.ok (setLouvain (setObsm (setNbrs (setObsm adata "X_pca" p) g) "X_umap" u) l),
           reClusterCalls)

/-- File-system events of the input cell (print, `os.makedirs`,
`wget.download`) and of the subsequent `sc.read`. -/
inductive IOEv
  | printed (msg : String)
  | madeDirs (p : String)
  | downloaded (url : String) (path : String)
  | readFile (p : String)
  deriving DecidableEq

/-- A file system: a set of directories and a map from paths to contents
(contents rendered as opaque strings). -/
structure FS where
  dirs : List String
  files : List (String × String)
  deriving DecidableEq

/-- `os.path.exists`. -/
def pathExists (fs : FS) (p : String) : Bool := (fs.files.lookup p).isSome

/-- The input cell of the notebook:
`if not os.path.exists(input_file): print(...); os.makedirs('../data', exist_ok=True);
wget.download(url, input_file)`.  `net` gives the bytes the network serves
for a URL. -/
def ensureInputFile (fs : FS) (net : String → String) : FS × List IOEv :=
  if pathExists fs input_file then (fs, [])
  else
    ({ dirs := "../data" :: fs.dirs
     , files := (input_file, net download_url) :: fs.files },
     [.printed "Downloading import file...",
      .madeDirs "../data",
      .downloaded download_url input_file])

/-- The input cell followed by `adata = sc.read(input_file)`: returns the
bytes read, the resulting file system, and all file-system events. -/
def loadInputFile (fs : FS) (net : String → String) : String × FS × List IOEv :=
  ((((ensureInputFile fs net).1).files.lookup input_file).getD "",
   (ensureInputFile fs net).1,
   (ensureInputFile fs net).2 ++ [.readFile input_file])

/-- True exactly on file-read events. -/
def isReadEv : IOEv → Bool
  | .readFile _ => true
  | _ => false

/-- The table exported from the dashboard: one row per selected cell, with
a `barcode` column and a `labels` column of newly generated cluster labels. -/
structure SelTable where
  barcode : List String
  labels : List Nat
  deriving DecidableEq

/-- An output artifact of the visualization stage. -/
inductive Artifact
  | dashboard
  | selTable (t : SelTable)
  deriving DecidableEq

/-- Row subsetting of an AnnData object by a list of row positions, as the
dashboard applies to the user's selection. -/
def subsetRows (a : AnnData) (sel : List Nat) : AnnData :=
  { X := sel.filterMap (fun i => a.X[i]?)
  , var_names := a.var_names
  , obs_names := sel.filterMap (fun i => a.obs_names[i]?)
  , obs := a.obs.map (fun p => (p.1, sel.filterMap (fun i => (p.2)[i]?)))
  , obsm := [], nbrs := none, louvain := none }

/-- Modelled from the spec: `visualize.py` is not under src/.  Per the spec
the visualization produces an interactive local web dashboard and,
optionally — exactly when the user exports a selection — an in-memory table
of the user-selected cells with assigned cluster labels (`v.new_df`, with a
`labels` column and a `barcode` column); before export the dashboard runs
the `re_cluster` callback on the selected subset of cells.  `sess` is the
user's dashboard session: `none` when no selection is exported, `some sel`
when the rows `sel` are selected and exported. -/
def runVisualization (ext : ExtLib) (a : AnnData) (sess : Option (List Nat)) :
    Except String (List Artifact × Option SelTable) × List ExtCall :=
  match sess with
  | none => (.ok ([.dashboard], none), [.visualizeCall])
  | some sel =>
    match re_cluster ext (subsetRows a sel) with
    | (.error e, t) => (.error e, .visualizeCall :: t)
    | (.ok a', t) =>
      (.ok ([.dashboard, .selTable ⟨a'.obs_names, a'.louvain.getD []⟩],
            some ⟨a'.obs_names, a'.louvain.getD []⟩),
       .visualizeCall :: (t ++ [.exportCall]))

/-- The external calls of the visualization stage for a given session. -/
def sessionCalls (sess : Option (List Nat)) : List ExtCall :=
  match sess with
  | none => [.visualizeCall]
  | some _ => .visualizeCall :: (reClusterCalls ++ [.exportCall])

/-- The whole notebook after loading: main pipeline, then the dashboard
session (with its optional re-cluster and export). -/
def runNotebook (ext : ExtLib) (sess : Option (List Nat)) :
    Except String (NBState × List Artifact × Option SelTable) × List ExtCall :=
  match runCells (pipelineCells ext) st0 with
  | (.error e, t) => (.error e, t)
  | (.ok st, t) =>
    match runVisualization ext st.adata sess with
    | (.error e, t2) => (.error e, t ++ t2)
    | (.ok (arts, tbl), t2) => (.ok (st, arts, tbl), t ++ t2)

/-- Wall-clock readings of the `%%time` cell magics: the displayed timing
log is a function of the ambient clock only. -/
def cellTimes (clock : Nat → Nat) (n : Nat) : List Nat :=
  (List.range n).map (fun i => clock (i + 1) - clock i)

/-- A run of the notebook in an ambient timing environment: the data result
together with the displayed timing log. -/
def runNotebookTimed (ext : ExtLib) (sess : Option (List Nat)) (clock : Nat → Nat) :
    (Except String (NBState × List Artifact × Option SelTable) × List ExtCall) × List Nat :=
  (runNotebook ext sess, cellTimes clock (pipelineCells ext).length)

/-- Modelled from the spec: `rapids_scanpy_funcs.filter_genes` is not under
src/.  Per the notebook text, with `min_cells = 1` it removes the genes
that have zero expression in all (remaining) cells: the columns kept are
exactly those with at least `min_cells` nonzero entries, and the gene-name
series is subset in the same way. -/
def filter_genesM (m : Mat) (g : List String) (min_cells : Nat) : Mat × List String :=
  ((m.map (fun row =>
      ((List.range g.length).filter
        (fun j => min_cells ≤ m.countP (fun row' => row'.getD j 0 != 0))).map
        (fun j => row.getD j 0))),
   ((List.range g.length).filter
      (fun j => min_cells ≤ m.countP (fun row' => row'.getD j 0 != 0))).map
     (fun j => g.getD j ""))

/-- Recover the payload of a successful run (with a default for failures). -/
def okOr (d : α) : Except String α → α
  | .ok a => a
  | .error _ => d

/-- Unfolding one cell whose run raises. -/
theorem runCells_cons_err {c : Cell} {cs : List Cell} {st : NBState} {e : String}
    (h : c.run st = .error e) :
    runCells (c :: cs) st = (.error e, c.calls) := by
  simp [runCells, h]

/-- Unfolding one cell whose run succeeds. -/
theorem runCells_cons_ok {c : Cell} {cs : List Cell} {st st' : NBState}
    (h : c.run st = .ok st') :
    runCells (c :: cs) st =
      ((runCells cs st').1, c.calls ++ (runCells cs st').2) := by
  simp [runCells, h]

/-- A raising cell is incompatible with a successful run. -/
theorem runCells_inv_err {c : Cell} {cs : List Cell} {st : NBState} (e : String)
    {stF : NBState} {tr : List ExtCall}
    (hc : c.run st = .error e) (h : runCells (c :: cs) st = (.ok stF, tr)) : False := by
  rw [runCells_cons_err hc] at h
  simp at h

/-- Inversion of one successful cell execution inside a successful run. -/
theorem runCells_inv {c : Cell} {cs : List Cell} {st : NBState} (st' : NBState)
    {stF : NBState} {tr : List ExtCall}
    (hc : c.run st = .ok st') (h : runCells (c :: cs) st = (.ok stF, tr)) :
    ∃ tr', runCells cs st' = (.ok stF, tr') ∧ tr = c.calls ++ tr' := by
  rw [runCells_cons_ok hc] at h
  rw [Prod.mk.injEq] at h
  refine ⟨(runCells cs st').2, ?_, h.2.symm⟩
  rw [← h.1]

/-- Splitting a cell sequence: the second half runs from the state the
first half produced, and traces concatenate; an error in the first half is
the whole result. -/
theorem runCells_append (cs ds : List Cell) (st : NBState) :
    runCells (cs ++ ds) st =
      match runCells cs st with
      | (.error e, t) => (.error e, t)
      | (.ok st', t) => ((runCells ds st').1, t ++ (runCells ds st').2) := by
  induction cs generalizing st with
  | nil => simp [runCells]
  | cons c cs ih =>
    rw [List.cons_append]
    cases hc : c.run st with
    | error e =>
      rw [runCells_cons_err hc, runCells_cons_err hc]
    | ok st' =>
      rw [runCells_cons_ok hc, runCells_cons_ok hc, ih st']
      cases hr : runCells cs st' with
      | mk r t => cases r <;> simp

/-- A successful `re_cluster` call issues exactly the four clustering calls
and returns the argument object with only `obsm`, the neighbor graph and
the Louvain labels updated. -/
theorem re_cluster_ok (ext : ExtLib) (a a' : AnnData) (tr : List ExtCall)
    (h : re_cluster ext a = (.ok a', tr)) :
    tr = reClusterCalls ∧
    ∃ p g u l,
      ext.pca a.X n_components = .ok p ∧
      ext.neighbors (setObsm a "X_pca" p) n_neighbors knn_n_pcs "rapids" = .ok g ∧
      ext.umap (setNbrs (setObsm a "X_pca" p) g)
        umap_min_dist umap_spread "rapids" = .ok u ∧
      ext.louvain (setObsm (setNbrs (setObsm a "X_pca" p) g) "X_umap" u)
        "rapids" = .ok l ∧
      a' = setLouvain (setObsm (setNbrs (setObsm a "X_pca" p) g) "X_umap" u) l := by
  unfold re_cluster at h
  cases hp : ext.pca a.X n_components with
  | error e => rw [hp] at h; simp at h
  | ok p =>
    rw [hp] at h
    dsimp only at h
    cases hn : ext.neighbors (setObsm a "X_pca" p) n_neighbors knn_n_pcs "rapids" with
    | error e => rw [hn] at h; simp at h
    | ok g =>
      rw [hn] at h
      dsimp only at h
      cases hu : ext.umap (setNbrs (setObsm a "X_pca" p) g)
          umap_min_dist umap_spread "rapids" with
      | error e => rw [hu] at h; simp at h
      | ok u =>
        rw [hu] at h
        dsimp only at h
        cases hl : ext.louvain
            (setObsm (setNbrs (setObsm a "X_pca" p) g) "X_umap" u) "rapids" with
        | error e => rw [hl] at h; simp at h
        | ok l =>
          rw [hl] at h
          dsimp only at h
          rw [Prod.mk.injEq] at h
          exact ⟨h.2.symm, p, g, u, l, rfl, hn, hu, hl, (Except.ok.inj h.1).symm⟩

/-- Claim C1: a successful `re_cluster` call, on any AnnData object (in
particular a subset of the cells), issues exactly four external calls —
PCA, neighbor graph, UMAP, Louvain — with the fixed configuration
n_components=50, n_neighbors=15, knn_n_pcs=50, umap_min_dist=0.3,
umap_spread=1.0, method/flavor 'rapids'; this four-call block occurs with
the same configuration inside the main pipeline's call sequence; and the
returned object is the argument object itself with only the clustering
results (obsm entries, neighbor graph, louvain labels) updated. -/
theorem spec_c1 (ext : ExtLib) (a a' : AnnData) (tr : List ExtCall)
    (h : re_cluster ext a = (.ok a', tr)) :
    tr = reClusterCalls ∧
    reClusterCalls =
      [ExtCall.pcaCall 50, ExtCall.neighborsCall 15 50 "rapids",
       ExtCall.umapCall (3/10) 1 "rapids", ExtCall.louvainCall "rapids"] ∧
    (∃ pre post, pre ++ reClusterCalls ++ post = mainCalls) ∧
    a'.X = a.X ∧ a'.var_names = a.var_names ∧ a'.obs_names = a.obs_names ∧
    a'.obs = a.obs := by
  obtain ⟨ht, p, g, u, l, _, _, _, _, ha⟩ := re_cluster_ok ext a a' tr h
  subst ha
  refine ⟨ht, rfl, ?_, rfl, rfl, rfl, rfl⟩
  exact ⟨[.readCall input_file, .filterCellsCall min_genes_per_cell max_genes_per_cell,
          .filterGenesCall 1, .normalizeCall target_sum, .log1pCall,
          .hvgCall n_top_genes "cell_ranger", .regressOutCall, .scaleCall max_value],
         [.plotCall "louvain"], rfl⟩

/-- Characterization of a successful main-pipeline run: it is exactly the
chain of external calls of the notebook, each feeding the next, and the
final state and trace are determined by the calls' results. -/
theorem run_main_ok (ext : ExtLib) (st : NBState) (tr : List ExtCall)
    (h : runCells (pipelineCells ext) st0 = (.ok st, tr)) :
    ∃ ad m1 b1 m2 g2 m3 m4 flags cols m5 m6 p gr u l,
      ext.read input_file = .ok ad ∧
      ext.filter_cells ad.X min_genes_per_cell max_genes_per_cell ad.obs_names
        = .ok (m1, b1) ∧
      ext.filter_genes m1 ad.var_names 1 = .ok (m2, g2) ∧
      ext.normalize_total m2 target_sum = .ok m3 ∧
      ext.log1p m3 = .ok m4 ∧
      ext.highly_variable_genes (preAd m4 g2) n_top_genes "cell_ranger" = .ok flags ∧
      captureMarkersRun g2 m4 markers = .ok cols ∧
      ext.regress_out (sliceCols (preAd m4 g2) flags).X
        (nCountsOf (sliceCols (preAd m4 g2) flags).X)
        (pctRibo (sliceCols (preAd m4 g2) flags).X
          (riboFlags (sliceCols (preAd m4 g2) flags).var_names)) = .ok m5 ∧
      ext.scale m5 max_value = .ok m6 ∧
      ext.pca m6 n_components = .ok p ∧
      ext.neighbors (setObsm (finalAd m6 (applyMask flags g2) b1 cols) "X_pca" p)
        n_neighbors knn_n_pcs "rapids" = .ok gr ∧
      ext.umap (setNbrs (setObsm (finalAd m6 (applyMask flags g2) b1 cols) "X_pca" p) gr)
        umap_min_dist umap_spread "rapids" = .ok u ∧
      ext.louvain (setObsm (setNbrs
          (setObsm (finalAd m6 (applyMask flags g2) b1 cols) "X_pca" p) gr) "X_umap" u)
        "rapids" = .ok l ∧
      st = ⟨setLouvain (setObsm (setNbrs
              (setObsm (finalAd m6 (applyMask flags g2) b1 cols) "X_pca" p) gr)
              "X_umap" u) l,
            applyMask flags g2, b1, m6, cols⟩ ∧
      tr = mainCalls := by
  simp only [pipelineCells] at h
  cases hread : ext.read input_file with
  | error e => exact (runCells_inv_err e (by simp [loadCell, hread, Except.map]) h).elim
  | ok ad =>
  obtain ⟨tr1, h, htr0⟩ := runCells_inv ⟨ad, ad.var_names, ad.obs_names, ad.X, []⟩
    (by simp [loadCell, hread, Except.map]) h
  cases hfc : ext.filter_cells ad.X min_genes_per_cell max_genes_per_cell ad.obs_names with
  | error e =>
    exact (runCells_inv_err e (by simp [filterCellsCell, hfc, Except.map]) h).elim
  | ok pr =>
  obtain ⟨m1, b1⟩ := pr
  obtain ⟨tr2, h, htr1⟩ := runCells_inv ⟨ad, ad.var_names, b1, m1, []⟩
    (by simp [filterCellsCell, hfc, Except.map]) h
  cases hfg : ext.filter_genes m1 ad.var_names 1 with
  | error e =>
    exact (runCells_inv_err e (by simp [filterGenesCell, hfg, Except.map]) h).elim
  | ok pr =>
  obtain ⟨m2, g2⟩ := pr
  obtain ⟨tr3, h, htr2⟩ := runCells_inv ⟨ad, g2, b1, m2, []⟩
    (by simp [filterGenesCell, hfg, Except.map]) h
  cases hnt : ext.normalize_total m2 target_sum with
  | error e =>
    exact (runCells_inv_err e (by simp [normalizeCell, hnt, Except.map]) h).elim
  | ok m3 =>
  obtain ⟨tr4, h, htr3⟩ := runCells_inv ⟨ad, g2, b1, m3, []⟩
    (by simp [normalizeCell, hnt, Except.map]) h
  cases hlg : ext.log1p m3 with
  | error e =>
    exact (runCells_inv_err e (by simp [log1pCell, hlg, Except.map]) h).elim
  | ok m4 =>
  obtain ⟨tr5, h, htr4⟩ := runCells_inv ⟨ad, g2, b1, m4, []⟩
    (by simp [log1pCell, hlg, Except.map]) h
  obtain ⟨tr6, h, htr5⟩ := runCells_inv ⟨preAd m4 g2, g2, b1, m4, []⟩
    (by simp [makeAdataCell]) h
  cases hhv : ext.highly_variable_genes (preAd m4 g2) n_top_genes "cell_ranger" with
  | error e =>
    exact (runCells_inv_err e (by simp [hvgCell, hhv, Except.map]) h).elim
  | ok flags =>
  obtain ⟨tr7, h, htr6⟩ := runCells_inv ⟨sliceCols (preAd m4 g2) flags, g2, b1, m4, []⟩
    (by simp [hvgCell, hhv, Except.map]) h
  cases hcap : captureMarkersRun g2 m4 markers with
  | error e =>
    exact (runCells_inv_err e (by simp [captureCell, hcap, Except.map]) h).elim
  | ok cols =>
  obtain ⟨tr8, h, htr7⟩ := runCells_inv ⟨sliceCols (preAd m4 g2) flags, g2, b1, m4, cols⟩
    (by simp [captureCell, hcap, Except.map]) h
  cases hrg : ext.regress_out (sliceCols (preAd m4 g2) flags).X
      (nCountsOf (sliceCols (preAd m4 g2) flags).X)
      (pctRibo (sliceCols (preAd m4 g2) flags).X
        (riboFlags (sliceCols (preAd m4 g2) flags).var_names)) with
  | error e =>
    exact (runCells_inv_err e (by simp [regressCell, hrg, Except.map]) h).elim
  | ok m5 =>
  obtain ⟨tr9, h, htr8⟩ := runCells_inv
    ⟨sliceCols (preAd m4 g2) flags, (sliceCols (preAd m4 g2) flags).var_names, b1, m5, cols⟩
    (by simp [regressCell, hrg, Except.map]) h
  cases hsc : ext.scale m5 max_value with
  | error e =>
    exact (runCells_inv_err e (by simp [scaleCell, hsc, Except.map]) h).elim
  | ok m6 =>
  obtain ⟨tr10, h, htr9⟩ := runCells_inv
    ⟨sliceCols (preAd m4 g2) flags, (sliceCols (preAd m4 g2) flags).var_names, b1, m6, cols⟩
    (by simp [scaleCell, hsc, Except.map]) h
  obtain ⟨tr11, h, htr10⟩ := runCells_inv
    ⟨finalAd m6 (applyMask flags g2) b1 cols,
     (sliceCols (preAd m4 g2) flags).var_names, b1, m6, cols⟩
    (by simp [finalAdataCell, finalAd, sliceCols, preAd]) h
  cases hpc : ext.pca m6 n_components with
  | error e =>
    exact (runCells_inv_err e (by simp [pcaCell, finalAd, hpc, Except.map]) h).elim
  | ok p =>
  obtain ⟨tr12, h, htr11⟩ := runCells_inv
    ⟨setObsm (finalAd m6 (applyMask flags g2) b1 cols) "X_pca" p,
     (sliceCols (preAd m4 g2) flags).var_names, b1, m6, cols⟩
    (by simp [pcaCell, finalAd, hpc, Except.map]) h
  cases hnb : ext.neighbors (setObsm (finalAd m6 (applyMask flags g2) b1 cols) "X_pca" p)
      n_neighbors knn_n_pcs "rapids" with
  | error e =>
    exact (runCells_inv_err e (by simp [neighborsCell, hnb, Except.map]) h).elim
  | ok gr =>
  obtain ⟨tr13, h, htr12⟩ := runCells_inv
    ⟨setNbrs (setObsm (finalAd m6 (applyMask flags g2) b1 cols) "X_pca" p) gr,
     (sliceCols (preAd m4 g2) flags).var_names, b1, m6, cols⟩
    (by simp [neighborsCell, hnb, Except.map]) h
  cases hum : ext.umap (setNbrs (setObsm (finalAd m6 (applyMask flags g2) b1 cols) "X_pca" p) gr)
      umap_min_dist umap_spread "rapids" with
  | error e =>
    exact (runCells_inv_err e (by simp [umapCell, hum, Except.map]) h).elim
  | ok u =>
  obtain ⟨tr14, h, htr13⟩ := runCells_inv
    ⟨setObsm (setNbrs (setObsm (finalAd m6 (applyMask flags g2) b1 cols) "X_pca" p) gr)
       "X_umap" u,
     (sliceCols (preAd m4 g2) flags).var_names, b1, m6, cols⟩
    (by simp [umapCell, hum, Except.map]) h
  cases hlv : ext.louvain (setObsm (setNbrs
      (setObsm (finalAd m6 (applyMask flags g2) b1 cols) "X_pca" p) gr) "X_umap" u)
      "rapids" with
  | error e =>
    exact (runCells_inv_err e (by simp [louvainCell, hlv, Except.map]) h).elim
  | ok l =>
  obtain ⟨tr15, h, htr14⟩ := runCells_inv
    ⟨setLouvain (setObsm (setNbrs
        (setObsm (finalAd m6 (applyMask flags g2) b1 cols) "X_pca" p) gr) "X_umap" u) l,
     (sliceCols (preAd m4 g2) flags).var_names, b1, m6, cols⟩
    (by simp [louvainCell, hlv, Except.map]) h
  cases hpl : ext.plotUmap (setLouvain (setObsm (setNbrs
      (setObsm (finalAd m6 (applyMask flags g2) b1 cols) "X_pca" p) gr) "X_umap" u) l)
      "louvain" with
  | error e =>
    exact (runCells_inv_err e (by simp [plotCell, hpl, Except.map]) h).elim
  | ok uv =>
  obtain ⟨tr16, h, htr15⟩ := runCells_inv
    ⟨setLouvain (setObsm (setNbrs
        (setObsm (finalAd m6 (applyMask flags g2) b1 cols) "X_pca" p) gr) "X_umap" u) l,
     (sliceCols (preAd m4 g2) flags).var_names, b1, m6, cols⟩
    (by simp [plotCell, hpl, Except.map]) h
  simp only [runCells] at h
  rw [Prod.mk.injEq] at h
  refine ⟨ad, m1, b1, m2, g2, m3, m4, flags, cols, m5, m6, p, gr, u, l,
    rfl, hfc, hfg, hnt, hlg, hhv, hcap, hrg, hsc, hpc, hnb, hum, hlv, ?_, ?_⟩
  · exact (Except.ok.inj h.1).symm
  · rw [htr0, htr1, htr2, htr3, htr4, htr5, htr6, htr7, htr8, htr9, htr10,
      htr11, htr12, htr13, htr14, htr15, ← h.2]
    rfl

/-- A small loaded data set for witnesses: two cells, the three marker
genes as the gene axis. -/
def adW : AnnData :=
  ⟨[[1, 0, 2], [0, 3, 4]], ["ACE2", "TMPRSS2", "EPCAM"], ["AAA", "CCC"],
   [], [], none, none⟩

/-- A total model of the external libraries, used to instantiate theorems
with hypotheses at concrete inputs. -/
def extOkW : ExtLib :=
  { read := fun _ => .ok adW
  , filter_cells := fun m _ _ _ => .ok (m, List.replicate m.length "b")
  , filter_genes := fun m g _ =>
      .ok (m.map (fun r => r.take g.length ++ List.replicate (g.length - r.length) 0), g)
  , normalize_total := fun m _ => .ok m
  , log1p := fun m => .ok m
  , highly_variable_genes := fun a _ _ => .ok (a.var_names.map (fun _ => true))
  , regress_out := fun m _ _ => .ok m
  , scale := fun m _ => .ok m
  , pca := fun m _ => .ok (m.map (fun _ => []))
  , neighbors := fun _ _ _ _ => .ok []
  , umap := fun a _ _ _ => .ok (a.X.map (fun _ => []))
  , louvain := fun a _ => .ok (a.X.map (fun _ => 0))
  , plotUmap := fun _ _ => .ok () }

/-- Witness for C1 at a concrete external library and data object. -/
theorem spec_c1_witness :
    (re_cluster extOkW adW).2 = reClusterCalls ∧
    reClusterCalls =
      [ExtCall.pcaCall 50, ExtCall.neighborsCall 15 50 "rapids",
       ExtCall.umapCall (3/10) 1 "rapids", ExtCall.louvainCall "rapids"] ∧
    (∃ pre post, pre ++ reClusterCalls ++ post = mainCalls) ∧
    (okOr adW (re_cluster extOkW adW).1).X = adW.X ∧
    (okOr adW (re_cluster extOkW adW).1).var_names = adW.var_names ∧
    (okOr adW (re_cluster extOkW adW).1).obs_names = adW.obs_names ∧
    (okOr adW (re_cluster extOkW adW).1).obs = adW.obs :=
  spec_c1 extOkW adW (okOr adW (re_cluster extOkW adW).1)
    (re_cluster extOkW adW).2 rfl

/-- Claim C4: in a successful run, each per-cell column named
`<marker>_raw` of the final AnnData object equals that marker's column of
the normalized and log-transformed matrix `m4` — captured after
`normalize_total` and `log1p` but before regression and scaling, hence not
the raw on-disk counts and not the regressed/scaled values — taken at the
first index where the filtered gene series equals the marker; the final
object's rows are named by the filtered cell barcodes `b1`, and each
captured column has one entry per row of `m4`, hence (given the library
preserves the row count) one entry per filtered barcode. -/
theorem spec_c4 (ext : ExtLib) (st : NBState) (tr : List ExtCall)
    (hrun : runCells (pipelineCells ext) st0 = (.ok st, tr))
    (ad : AnnData) (m1 : Mat) (b1 : List String) (m2 : Mat) (g2 : List String)
    (m3 m4 : Mat)
    (h1 : ext.read input_file = .ok ad)
    (h2 : ext.filter_cells ad.X min_genes_per_cell max_genes_per_cell ad.obs_names
            = .ok (m1, b1))
    (h3 : ext.filter_genes m1 ad.var_names 1 = .ok (m2, g2))
    (h4 : ext.normalize_total m2 target_sum = .ok m3)
    (h5 : ext.log1p m3 = .ok m4)
    (iA iT iE : Nat) (rA rT rE : List Nat)
    (hA : eqIndices g2 "ACE2" = iA :: rA)
    (hT : eqIndices g2 "TMPRSS2" = iT :: rT)
    (hE : eqIndices g2 "EPCAM" = iE :: rE)
    (hlen : m4.length = b1.length) :
    st.adata.obs.lookup "ACE2_raw" = some (colOf m4 iA) ∧
    st.adata.obs.lookup "TMPRSS2_raw" = some (colOf m4 iT) ∧
    st.adata.obs.lookup "EPCAM_raw" = some (colOf m4 iE) ∧
    st.adata.obs_names = b1 ∧
    (colOf m4 iA).length = b1.length ∧
    (colOf m4 iT).length = b1.length ∧
    (colOf m4 iE).length = b1.length := by
  obtain ⟨ad', m1', b1', m2', g2', m3', m4', flags, cols, m5, m6, p, gr, u, l,
    e1, e2, e3, e4, e5, e6, e7, e8, e9, e10, e11, e12, e13, hst, htr⟩ :=
    run_main_ok ext st tr hrun
  obtain rfl : ad' = ad := Except.ok.inj (e1.symm.trans h1)
  injection Except.ok.inj (e2.symm.trans h2) with hm1 hb1
  subst hm1; subst hb1
  injection Except.ok.inj (e3.symm.trans h3) with hm2 hg2
  subst hm2; subst hg2
  obtain rfl : m3' = m3 := Except.ok.inj (e4.symm.trans h4)
  obtain rfl : m4' = m4 := Except.ok.inj (e5.symm.trans h5)
  simp only [markers, captureMarkersRun, hA, hT, hE, Except.ok.injEq] at e7
  subst e7
  subst hst
  refine ⟨rfl, rfl, rfl, rfl, ?_, ?_, ?_⟩ <;> simp [colOf, hlen]

/-- Witness for C4 at a concrete external library and data set. -/
theorem spec_c4_witness :
    (okOr st0 (runCells (pipelineCells extOkW) st0).1).adata.obs.lookup "ACE2_raw"
      = some (colOf [[1, 0, 2], [0, 3, 4]] 0) ∧
    (okOr st0 (runCells (pipelineCells extOkW) st0).1).adata.obs.lookup "TMPRSS2_raw"
      = some (colOf [[1, 0, 2], [0, 3, 4]] 1) ∧
    (okOr st0 (runCells (pipelineCells extOkW) st0).1).adata.obs.lookup "EPCAM_raw"
      = some (colOf [[1, 0, 2], [0, 3, 4]] 2) ∧
    (okOr st0 (runCells (pipelineCells extOkW) st0).1).adata.obs_names = ["b", "b"] ∧
    (colOf [[1, 0, 2], [0, 3, 4]] 0).length = (["b", "b"] : List String).length ∧
    (colOf [[1, 0, 2], [0, 3, 4]] 1).length = (["b", "b"] : List String).length ∧
    (colOf [[1, 0, 2], [0, 3, 4]] 2).length = (["b", "b"] : List String).length :=
  spec_c4 extOkW (okOr st0 (runCells (pipelineCells extOkW) st0).1)
    (runCells (pipelineCells extOkW) st0).2 rfl
    adW [[1, 0, 2], [0, 3, 4]] ["b", "b"] [[1, 0, 2], [0, 3, 4]]
    ["ACE2", "TMPRSS2", "EPCAM"] [[1, 0, 2], [0, 3, 4]] [[1, 0, 2], [0, 3, 4]]
    rfl rfl rfl rfl rfl 0 1 2 [] [] [] rfl rfl rfl rfl

/-- Row/column alignment of an annotated data object: as many row names as
matrix rows, each row as wide as the gene-name table, and every obs column,
embedding and label vector with one entry per row. -/
def Aligned (a : AnnData) : Prop :=
  a.X.length = a.obs_names.length ∧
  (∀ row ∈ a.X, row.length = a.var_names.length) ∧
  (∀ q ∈ a.obs, (q.2).length = a.X.length) ∧
  (∀ q ∈ a.obsm, (q.2).length = a.X.length) ∧
  (∀ lb, a.louvain = some lb → lb.length = a.X.length)

/-- The shape guarantees of the external libraries' documented behavior:
filters return matrices aligned with the metadata they return, elementwise
transforms preserve the shape, and the embeddings and labels have one row
per cell. -/
structure ShapeContracts (ext : ExtLib) : Prop where
  fc : ∀ m mn mx bc m' bc', ext.filter_cells m mn mx bc = .ok (m', bc') →
    m'.length = bc'.length ∧
    ∀ w, (∀ row ∈ m, row.length = w) → ∀ row ∈ m', row.length = w
  fg : ∀ m g mc m' g', ext.filter_genes m g mc = .ok (m', g') →
    m'.length = m.length ∧ ∀ row ∈ m', row.length = g'.length
  nt : ∀ m t m', ext.normalize_total m t = .ok m' →
    m'.map List.length = m.map List.length
  lg : ∀ m m', ext.log1p m = .ok m' → m'.map List.length = m.map List.length
  rg : ∀ m nc pr m', ext.regress_out m nc pr = .ok m' →
    m'.map List.length = m.map List.length
  sc : ∀ m v m', ext.scale m v = .ok m' → m'.map List.length = m.map List.length
  pc : ∀ m n p, ext.pca m n = .ok p → p.length = m.length
  um : ∀ a d s f u, ext.umap a d s f = .ok u → u.length = a.X.length
  lv : ∀ a f l, ext.louvain a f = .ok l → l.length = a.X.length

/-- Equal row-length profiles give equal row counts. -/
theorem length_eq_of_dims {m m' : Mat} (h : m'.map List.length = m.map List.length) :
    m'.length = m.length := by
  have := congrArg List.length h
  simpa using this

/-- Equal row-length profiles transfer a uniform row width. -/
theorem width_of_dims {m m' : Mat} {w : Nat}
    (h : m'.map List.length = m.map List.length)
    (hw : ∀ row ∈ m, row.length = w) : ∀ row ∈ m', row.length = w := by
  intro row hr
  have hmem : row.length ∈ m'.map List.length := List.mem_map_of_mem _ hr
  rw [h] at hmem
  obtain ⟨r, hrm, hlen⟩ := List.mem_map.mp hmem
  rw [← hlen]
  exact hw r hrm

/-- Masking two lists of equal length gives equal lengths. -/
theorem applyMask_length_congr (fl : List Bool) :
    ∀ (xs : List α) (ys : List β), xs.length = ys.length →
      (applyMask fl xs).length = (applyMask fl ys).length := by
  induction fl with
  | nil => intro xs ys _; rfl
  | cons f fs ih =>
    intro xs ys h
    cases xs with
    | nil => cases ys with
      | nil => rfl
      | cons y ys => simp at h
    | cons x xs =>
      cases ys with
      | nil => simp at h
      | cons y ys =>
        have h' : xs.length = ys.length := by simpa using h
        cases f <;> simp [applyMask, ih xs ys h']

/-- Every captured marker column has one entry per matrix row. -/
theorem captureMarkersRun_lengths (g : List String) (m : Mat) :
    ∀ (L : List String) (cols : List (List Rat)),
      captureMarkersRun g m L = .ok cols → ∀ c ∈ cols, c.length = m.length := by
  intro L
  induction L with
  | nil =>
    intro cols h c hcm
    simp only [captureMarkersRun, Except.ok.injEq] at h
    subst h
    simp at hcm
  | cons mk rest ih =>
    intro cols h c hcm
    simp only [captureMarkersRun] at h
    cases hi : eqIndices g mk with
    | nil => rw [hi] at h; simp at h
    | cons i is =>
      rw [hi] at h
      dsimp only at h
      cases hr : captureMarkersRun g m rest with
      | error e => rw [hr] at h; simp at h
      | ok cols' =>
        rw [hr] at h
        simp only [Except.ok.injEq] at h
        subst h
        rcases List.mem_cons.mp hcm with rfl | hcm'
        · simp [colOf]
        · exact ih cols' hr c hcm'

/-- Claim C3: alignment of the final annotated object follows from the
external libraries' shape contracts alone.  For every external library
satisfying `ShapeContracts`, the final AnnData of a successful run is
aligned: the notebook's own code only threads the metadata the library
returns (barcodes from filter_cells, genes from filter_genes and the HVG
subset) and attaches library-produced columns, without any re-subsetting
or reordering of its own. -/
theorem spec_c3 (ext : ExtLib) (st : NBState) (tr : List ExtCall)
    (hc : ShapeContracts ext)
    (h : runCells (pipelineCells ext) st0 = (.ok st, tr)) :
    Aligned st.adata := by
  obtain ⟨ad, m1, b1, m2, g2, m3, m4, flags, cols, m5, m6, p, gr, u, l,
    e1, e2, e3, e4, e5, e6, e7, e8, e9, e10, e11, e12, e13, hst, htr⟩ :=
    run_main_ok ext st tr h
  subst hst
  obtain ⟨hfc_rows, hfc_w⟩ := hc.fc _ _ _ _ _ _ e2
  obtain ⟨hfg_rows, hfg_w⟩ := hc.fg _ _ _ _ _ e3
  have hnt := hc.nt _ _ _ e4
  have hlg := hc.lg _ _ e5
  have hrg := hc.rg _ _ _ _ e8
  have hsc := hc.sc _ _ _ e9
  have hpc := hc.pc _ _ _ e10
  have hum := hc.um _ _ _ _ _ e12
  have hlv := hc.lv _ _ _ e13
  have r4b : m4.length = b1.length := by
    rw [length_eq_of_dims hlg, length_eq_of_dims hnt, hfg_rows, hfc_rows]
  have rSlice : (sliceCols (preAd m4 g2) flags).X.length = m4.length :=
    List.length_map _ _
  have r5 : m5.length = m4.length := (length_eq_of_dims hrg).trans rSlice
  have r6 : m6.length = m4.length := (length_eq_of_dims hsc).trans r5
  have r6b : m6.length = b1.length := r6.trans r4b
  have w4 : ∀ row ∈ m4, row.length = g2.length :=
    width_of_dims hlg (width_of_dims hnt hfg_w)
  have wSlice : ∀ row ∈ (sliceCols (preAd m4 g2) flags).X,
      row.length = (applyMask flags g2).length := by
    intro row hr
    obtain ⟨r, hrm, rfl⟩ := List.mem_map.mp hr
    exact applyMask_length_congr flags r g2 (w4 r hrm)
  have w6 : ∀ row ∈ m6, row.length = (applyMask flags g2).length :=
    width_of_dims hsc (width_of_dims hrg wSlice)
  have wcols : ∀ c ∈ cols, c.length = m4.length :=
    captureMarkersRun_lengths g2 m4 markers cols e7
  refine ⟨r6b, w6, ?_, ?_, ?_⟩
  · intro q hq
    obtain ⟨pr, hpr, rfl⟩ := List.mem_map.mp hq
    obtain ⟨mk, cq⟩ := pr
    exact ((wcols cq (List.of_mem_zip hpr).2).trans r6.symm)
  · intro q hq
    rcases List.mem_cons.mp hq with rfl | hq'
    · exact hum
    · rcases List.mem_cons.mp hq' with rfl | hq''
      · exact hpc
      · simp [finalAd, setObsm, setNbrs] at hq''
  · intro lb hlb
    have : l = lb := Option.some.inj hlb
    subst this
    exact hlv

/-- Witness for C3: the concrete external-library model satisfies the shape
contracts, so the final object of its run is aligned. -/
theorem spec_c3_witness :
    Aligned (okOr st0 (runCells (pipelineCells extOkW) st0).1).adata :=
  spec_c3 extOkW (okOr st0 (runCells (pipelineCells extOkW) st0).1)
    (runCells (pipelineCells extOkW) st0).2
    (by
      constructor
      · intro m mn mx bc m' bc' h
        injection h with hp
        injection hp with h1 h2
        subst h1; subst h2
        exact ⟨by simp, fun w hw => hw⟩
      · intro m g mc m' g' h
        injection h with hp
        injection hp with h1 h2
        subst h1; subst h2
        constructor
        · simp
        · intro row hr
          obtain ⟨r, _, rfl⟩ := List.mem_map.mp hr
          simp
          omega
      · intro m t m' h; injection h with h1; subst h1; rfl
      · intro m m' h; injection h with h1; subst h1; rfl
      · intro m nc pr m' h; injection h with h1; subst h1; rfl
      · intro m v m' h; injection h with h1; subst h1; rfl
      · intro m n p h; injection h with h1; subst h1; simp
      · intro a d s f u h; injection h with h1; subst h1; simp
      · intro a f l h; injection h with h1; subst h1; simp)
    rfl

/-- The pipeline steps named by the specification. -/
inductive Step
  | load | filterCellsStep | filterGenesStep | normalizeStep | logTransform
  | selectHVG | regressStep | scaleStep | pcaStep | neighborsStep | umapStep
  | louvainStep | visualizeStep
  deriving DecidableEq

/-- The specification-level step an external call belongs to (plotting and
the dashboard both belong to the visualize step; the export event is part
of the optional tail). -/
def stepOf : ExtCall → Option Step
  | .readCall _ => some .load
  | .filterCellsCall _ _ => some .filterCellsStep
  | .filterGenesCall _ => some .filterGenesStep
  | .normalizeCall _ => some .normalizeStep
  | .log1pCall => some .logTransform
  | .hvgCall _ _ => some .selectHVG
  | .regressOutCall => some .regressStep
  | .scaleCall _ => some .scaleStep
  | .pcaCall _ => some .pcaStep
  | .neighborsCall _ _ _ => some .neighborsStep
  | .umapCall _ _ _ => some .umapStep
  | .louvainCall _ => some .louvainStep
  | .plotCall _ => some .visualizeStep
  | .visualizeCall => some .visualizeStep
  | .exportCall => none

/-- Claim C2: a successful notebook run issues exactly the fixed main call
sequence followed by the dashboard session's calls — the dashboard alone
when nothing is exported, and the dashboard, the four re-clustering calls
and the export when the user exports a selection.  At the step level the
main sequence is exactly load, filter cells, filter genes, normalize,
log-transform, select highly variable genes, regress out, scale, PCA,
neighbors, UMAP, Louvain, visualize, in this order; the pipeline is a
left-to-right composition of cells (`runCells`), so no step's output feeds
an earlier step. -/
theorem spec_c2 (ext : ExtLib) (sess : Option (List Nat))
    (res : NBState × List Artifact × Option SelTable) (tr : List ExtCall)
    (h : runNotebook ext sess = (.ok res, tr)) :
    tr = mainCalls ++ sessionCalls sess ∧
    mainCalls.filterMap stepOf =
      [Step.load, Step.filterCellsStep, Step.filterGenesStep, Step.normalizeStep,
       Step.logTransform, Step.selectHVG, Step.regressStep, Step.scaleStep,
       Step.pcaStep, Step.neighborsStep, Step.umapStep, Step.louvainStep,
       Step.visualizeStep] := by
  refine ⟨?_, rfl⟩
  unfold runNotebook at h
  cases hm : runCells (pipelineCells ext) st0 with
  | mk r t =>
    rw [hm] at h
    cases r with
    | error e => simp at h
    | ok st =>
      dsimp only at h
      obtain ⟨_, _, _, _, _, _, _, _, _, _, _, _, _, _, _,
        _, _, _, _, _, _, _, _, _, _, _, _, _, _, htr⟩ := run_main_ok ext st t hm
      subst htr
      cases sess with
      | none =>
        rw [show runVisualization ext st.adata none =
          (.ok ([.dashboard], none), [.visualizeCall]) from rfl] at h
        dsimp only at h
        rw [Prod.mk.injEq] at h
        exact h.2.symm
      | some sel =>
        unfold runVisualization at h
        dsimp only at h
        cases hrc : re_cluster ext (subsetRows st.adata sel) with
        | mk rr tt =>
          rw [hrc] at h
          cases rr with
          | error e => simp at h
          | ok a' =>
            dsimp only at h
            rw [Prod.mk.injEq] at h
            rw [← h.2, (re_cluster_ok ext (subsetRows st.adata sel) a' tt hrc).1]
            rfl

/-- Witness for C2: a full successful run at a concrete external library
with no export session. -/
theorem spec_c2_witness :
    (runNotebook extOkW none).2 = mainCalls ++ sessionCalls none ∧
    mainCalls.filterMap stepOf =
      [Step.load, Step.filterCellsStep, Step.filterGenesStep, Step.normalizeStep,
       Step.logTransform, Step.selectHVG, Step.regressStep, Step.scaleStep,
       Step.pcaStep, Step.neighborsStep, Step.umapStep, Step.louvainStep,
       Step.visualizeStep] :=
  spec_c2 extOkW none (okOr (st0, [], none) (runNotebook extOkW none).1)
    (runNotebook extOkW none).2 rfl

/-- Claim C6: the only file-read event of the input stage is the single
read of the fixed path, in every file system and network environment, and
the bytes the pipeline consumes are the preexisting file when present,
otherwise exactly the bytes downloaded from the fixed URL.  The embedded
notebook takes no other input (no CLI arguments and no other persisted
state appear in its signature). -/
theorem spec_c6 (fs : FS) (net : String → String) :
    (loadInputFile fs net).2.2.filter isReadEv = [IOEv.readFile input_file] ∧
    input_file = "../data/krasnow_hlca_10x.sparse.h5ad" ∧
    (loadInputFile fs net).1 =
      (if pathExists fs input_file then (fs.files.lookup input_file).getD ""
       else net download_url) := by
  refine ⟨?_, rfl, ?_⟩
  · unfold loadInputFile ensureInputFile
    by_cases h : pathExists fs input_file <;> simp [h, isReadEv]
  · unfold loadInputFile ensureInputFile
    by_cases h : pathExists fs input_file <;> simp [h, List.lookup]

/-- Claim C7: an error raised by an external library call in any pipeline
cell propagates unchanged to the end of the run: if the cells before it
succeed and cell `c` raises `e`, the whole pipeline's result is exactly
`Except.error e`.  The notebook contains no handler, custom error type or
retry logic (no cell inspects or replaces an error value). -/
theorem spec_c7 (ext : ExtLib) (pre : List Cell) (c : Cell) (post : List Cell)
    (stMid : NBState) (e : String)
    (hsplit : pipelineCells ext = pre ++ c :: post)
    (hpre : (runCells pre st0).1 = .ok stMid)
    (hc : c.run stMid = .error e) :
    (runCells (pipelineCells ext) st0).1 = .error e := by
  rw [hsplit, runCells_append]
  cases hr : runCells pre st0 with
  | mk r t =>
    rw [hr] at hpre
    cases r with
    | error e' => simp at hpre
    | ok st' =>
      have hst : st' = stMid := Except.ok.inj hpre
      subst hst
      simp [runCells, hc]

/-- An external-library model whose normalization step raises. -/
def extErrW : ExtLib := { extOkW with normalize_total := fun _ _ => .error "boom" }

/-- Witness for C7: with a normalization step that raises "boom", the whole
pipeline run evaluates to exactly that error. -/
theorem spec_c7_witness :
    (runCells (pipelineCells extErrW) st0).1 = .error "boom" :=
  spec_c7 extErrW
    [loadCell extErrW, filterCellsCell extErrW, filterGenesCell extErrW]
    (normalizeCell extErrW)
    [log1pCell extErrW, makeAdataCell, hvgCell extErrW, captureCell,
     regressCell extErrW, scaleCell extErrW, finalAdataCell, pcaCell extErrW,
     neighborsCell extErrW, umapCell extErrW, louvainCell extErrW, plotCell extErrW]
    (okOr st0 (runCells [loadCell extErrW, filterCellsCell extErrW,
      filterGenesCell extErrW] st0).1)
    "boom" rfl rfl rfl

/-- Claim C8: the notebook's outputs are a function of the input data and
the external libraries' behavior alone.  Two runs with the same external
libraries and the same dashboard session but arbitrary different ambient
clocks produce identical results: the same filtered matrix, gene and
barcode series, AnnData object (metadata tables, PCA embedding, UMAP
layout, Louvain labels), exported table and call trace; the clock feeds
only the displayed timing log. -/
theorem spec_c8 (ext : ExtLib) (sess : Option (List Nat)) (c₁ c₂ : Nat → Nat) :
    (runNotebookTimed ext sess c₁).1 = (runNotebookTimed ext sess c₂).1 := rfl

/-- True exactly on download events. -/
def isDownloadEv : IOEv → Bool
  | .downloaded _ _ => true
  | _ => false

/-- Claim C9: if and only if the fixed input path is absent, the input cell
creates the `../data` directory and downloads the fixed URL to that path
(after which the path exists and holds the downloaded bytes); when the path
is present the cell does nothing — no directory creation, no download, file
system unchanged. -/
theorem spec_c9 (fs : FS) (net : String → String) :
    (pathExists fs input_file = false →
      ensureInputFile fs net =
        ({ dirs := "../data" :: fs.dirs
         , files := (input_file, net download_url) :: fs.files },
         [.printed "Downloading import file...", .madeDirs "../data",
          .downloaded download_url input_file]) ∧
      pathExists (ensureInputFile fs net).1 input_file = true) ∧
    (pathExists fs input_file = true → ensureInputFile fs net = (fs, [])) ∧
    ((ensureInputFile fs net).2.filter isDownloadEv ≠ [] ↔
      pathExists fs input_file = false) := by
  refine ⟨?_, ?_, ?_⟩
  · intro h
    constructor
    · simp [ensureInputFile, h]
    · simp only [ensureInputFile, h]
      simp [pathExists, List.lookup]
  · intro h
    simp [ensureInputFile, h]
  · by_cases h : pathExists fs input_file <;>
      simp [ensureInputFile, h, isDownloadEv]

/-- An empty file system for the C9 witness. -/
def fsEmptyW : FS := ⟨[], []⟩

/-- Witness for C9 at a concrete file system missing the input file. -/
theorem spec_c9_witness :
    ensureInputFile fsEmptyW (fun _ => "bytes") =
      ({ dirs := ["../data"], files := [(input_file, "bytes")] },
       [.printed "Downloading import file...", .madeDirs "../data",
        .downloaded download_url input_file]) ∧
    pathExists (ensureInputFile fsEmptyW (fun _ => "bytes")).1 input_file = true :=
  (spec_c9 fsEmptyW (fun _ => "bytes")).1 rfl

/-- Position-subsetting two aligned lists keeps them aligned. -/
theorem filterMap_getElem_length (sel : List Nat) (xs : List α) (ys : List β)
    (h : xs.length = ys.length) :
    (sel.filterMap (fun i => xs[i]?)).length =
      (sel.filterMap (fun i => ys[i]?)).length := by
  induction sel with
  | nil => rfl
  | cons i sel ih =>
    simp only [List.filterMap_cons]
    cases hx : xs[i]? with
    | none =>
      have hxl : xs.length ≤ i := by
        by_contra hlt
        exact absurd hx (by simp [List.getElem?_eq_getElem (Nat.lt_of_not_le hlt)])
      have hy : ys[i]? = none := by
        rw [List.getElem?_eq_none_iff]
        omega
      rw [hy]
      exact ih
    | some x =>
      have hxl : i < xs.length := by
        by_contra hlt
        rw [List.getElem?_eq_none_iff.mpr (Nat.le_of_not_lt hlt)] at hx
        exact absurd hx (by simp)
      obtain ⟨y, hy⟩ : ∃ y, ys[i]? = some y :=
        ⟨ys.get ⟨i, h ▸ hxl⟩, List.getElem?_eq_getElem (h ▸ hxl)⟩
      rw [hy]
      simpa using ih

/-- Row-subsetting an aligned object keeps matrix rows and row names
aligned. -/
theorem subsetRows_align (a : AnnData) (sel : List Nat)
    (h : a.X.length = a.obs_names.length) :
    (subsetRows a sel).X.length = (subsetRows a sel).obs_names.length :=
  filterMap_getElem_length sel a.X a.obs_names h

/-- Claim C5: a successful visualization stage yields the dashboard and —
exactly when the user exports a selection — one in-memory table whose rows
are the selected cells and in which the labels column assigns one newly
generated cluster label per row; nothing else is produced.  The labels come
from the re-cluster callback's Louvain call, so the one-label-per-row fact
uses the library's contract that Louvain labels every row. -/
theorem spec_c5 (ext : ExtLib) (a : AnnData) (sess : Option (List Nat))
    (arts : List Artifact) (tbl : Option SelTable) (tr : List ExtCall)
    (hlv : ∀ a' f l, ext.louvain a' f = .ok l → l.length = a'.X.length)
    (ha : a.X.length = a.obs_names.length)
    (h : runVisualization ext a sess = (.ok (arts, tbl), tr)) :
    (sess = none → arts = [.dashboard] ∧ tbl = none) ∧
    (∀ sel, sess = some sel → ∃ t, arts = [.dashboard, .selTable t] ∧
      tbl = some t ∧ t.labels.length = t.barcode.length) := by
  cases sess with
  | none =>
    refine ⟨fun _ => ?_, fun sel hs => by simp at hs⟩
    unfold runVisualization at h
    rw [Prod.mk.injEq] at h
    have h1 := Except.ok.inj h.1
    injection h1 with harts htbl
    exact ⟨harts.symm, htbl.symm⟩
  | some sel =>
    refine ⟨fun hs => by simp at hs, fun sel' hs => ?_⟩
    obtain rfl : sel' = sel := (Option.some.inj hs).symm
    unfold runVisualization at h
    dsimp only at h
    cases hrc : re_cluster ext (subsetRows a sel') with
    | mk rr tt =>
      rw [hrc] at h
      cases rr with
      | error e => simp at h
      | ok a' =>
        dsimp only at h
        rw [Prod.mk.injEq] at h
        have h1 := Except.ok.inj h.1
        injection h1 with harts htbl
        obtain ⟨p2, g2, u2, l2, _, _, _, hl2, ha'⟩ :=
          (re_cluster_ok ext _ a' tt hrc).2
        refine ⟨⟨a'.obs_names, a'.louvain.getD []⟩, harts.symm, htbl.symm, ?_⟩
        subst ha'
        exact (hlv _ _ _ hl2).trans (subsetRows_align a sel' ha)

/-- Witness for C5 at the concrete external-library model, exporting the
first cell. -/
theorem spec_c5_witness :
    ((some [0] : Option (List Nat)) = none →
      (okOr ([], none) (runVisualization extOkW adW (some [0])).1).1 = [.dashboard] ∧
      (okOr ([], none) (runVisualization extOkW adW (some [0])).1).2 = none) ∧
    (∀ sel, (some [0] : Option (List Nat)) = some sel → ∃ t,
      (okOr ([], none) (runVisualization extOkW adW (some [0])).1).1 =
        [.dashboard, .selTable t] ∧
      (okOr ([], none) (runVisualization extOkW adW (some [0])).1).2 = some t ∧
      t.labels.length = t.barcode.length) :=
  spec_c5 extOkW adW (some [0])
    (okOr ([], none) (runVisualization extOkW adW (some [0])).1).1
    (okOr ([], none) (runVisualization extOkW adW (some [0])).1).2
    (runVisualization extOkW adW (some [0])).2
    (by intro a' f l h; injection h with h1; subst h1; simp)
    rfl rfl

/-- Membership in a string series, phrased through positional access. -/
theorem mem_iff_getD (g : List String) (mk : String) :
    mk ∈ g ↔ ∃ i, i < g.length ∧ g.getD i "" = mk := by
  induction g with
  | nil => simp
  | cons a g ih =>
    simp only [List.mem_cons, ih]
    constructor
    · rintro (rfl | ⟨i, hi, hg⟩)
      · exact ⟨0, by simp, rfl⟩
      · exact ⟨i + 1, by simpa using hi, by simpa using hg⟩
    · rintro ⟨i, hi, hg⟩
      cases i with
      | zero => left; exact hg.symm
      | succ i => right; exact ⟨i, by simpa using hi, by simpa using hg⟩

/-- The match set of a marker is empty exactly when the marker is absent
from the series. -/
theorem eqIndices_eq_nil_iff (g : List String) (mk : String) :
    eqIndices g mk = [] ↔ ¬ mk ∈ g := by
  rw [mem_iff_getD]
  simp only [eqIndices, List.filter_eq_nil_iff, List.mem_range, beq_iff_eq]
  push_neg
  constructor
  · intro h i hi
    exact h i hi
  · intro h i hi
    exact h i hi

/-- The capture loop terminates successfully exactly when every requested
marker has a nonempty match set. -/
theorem captureMarkers_ok_iff (g : List String) (m : Mat) (L : List String) :
    (∃ cols, captureMarkersRun g m L = .ok cols) ↔
      ∀ mk ∈ L, eqIndices g mk ≠ [] := by
  induction L with
  | nil => simp [captureMarkersRun]
  | cons mk rest ih =>
    constructor
    · rintro ⟨cols, h⟩ mk' hmk'
      simp only [captureMarkersRun] at h
      cases hi : eqIndices g mk with
      | nil => rw [hi] at h; simp at h
      | cons i is =>
        rw [hi] at h
        dsimp only at h
        cases hr : captureMarkersRun g m rest with
        | error e => rw [hr] at h; simp at h
        | ok cols' =>
          rcases List.mem_cons.mp hmk' with rfl | hmk''
          · rw [hi]; simp
          · exact ih.mp ⟨cols', hr⟩ mk' hmk''
    · intro hall
      obtain ⟨cols', hr⟩ := ih.mpr (fun mk' hm => hall mk' (List.mem_cons_of_mem _ hm))
      have hne := hall mk (List.mem_cons_self _ _)
      cases hi : eqIndices g mk with
      | nil => exact absurd hi hne
      | cons i is =>
        refine ⟨colOf m i :: cols', ?_⟩
        simp only [captureMarkersRun, hi, hr]

/-- A marker with an empty match set makes the capture loop raise the cudf
IndexError. -/
theorem captureMarkers_err (g : List String) (m : Mat) :
    ∀ L : List String, (∃ mk ∈ L, eqIndices g mk = []) →
      captureMarkersRun g m L = .error "IndexError: list index out of range" := by
  intro L
  induction L with
  | nil => rintro ⟨mk, hmk, _⟩; simp at hmk
  | cons mk rest ih =>
    rintro ⟨mk', hmk', hempty⟩
    rcases List.mem_cons.mp hmk' with rfl | hrest
    · simp [captureMarkersRun, hempty]
    · cases hi : eqIndices g mk with
      | nil => simp [captureMarkersRun, hi]
      | cons i is => simp [captureMarkersRun, hi, ih ⟨mk', hrest, hempty⟩]

/-- Membership in the spec-modelled gene filter's output. -/
theorem filter_genesM_mem (m : Mat) (g : List String) (mk : String) :
    mk ∈ (filter_genesM m g 1).2 ↔
      ∃ j, j < g.length ∧ g.getD j "" = mk ∧ ∃ row ∈ m, row.getD j 0 ≠ 0 := by
  simp only [filter_genesM, List.mem_map, List.mem_filter, List.mem_range,
    decide_eq_true_eq,
    show ∀ n : Nat, (1 ≤ n) ↔ 0 < n from fun n => Iff.rfl,
    List.countP_pos_iff, bne_iff_ne, ne_eq]
  constructor
  · rintro ⟨j, ⟨hj, hcnt⟩, hgd⟩
    exact ⟨j, hj, hgd, hcnt⟩
  · rintro ⟨j, hj, hgd, hcnt⟩
    exact ⟨j, ⟨hj, hcnt⟩, hgd⟩

/-- Claim C10: the marker-capture step is partial.  (i) It succeeds exactly
when every marker of `markers` occurs in the (filtered) gene series — it
takes the first matching index per marker.  (ii) With the gene filter at
`min_cells = 1` (modelled from the spec), a gene name occurs in the
filtered series exactly when it sits at a position of the original series
whose column has a nonzero entry in at least one surviving cell.  (iii) On
any state whose gene series misses some marker, the capture cell raises the
IndexError and the rest of the pipeline is not run. -/
theorem spec_c10 :
    (∀ (g : List String) (m : Mat),
      (∃ cols, captureMarkersRun g m markers = .ok cols) ↔
        ∀ mk ∈ markers, mk ∈ g) ∧
    (∀ (m : Mat) (g : List String) (mk : String),
      mk ∈ (filter_genesM m g 1).2 ↔
        ∃ j, j < g.length ∧ g.getD j "" = mk ∧ ∃ row ∈ m, row.getD j 0 ≠ 0) ∧
    (∀ (cs : List Cell) (st' : NBState), (∃ mk ∈ markers, ¬ mk ∈ st'.genes) →
      runCells (captureCell :: cs) st' =
        (.error "IndexError: list index out of range", [])) := by
  refine ⟨?_, filter_genesM_mem, ?_⟩
  · intro g m
    rw [captureMarkers_ok_iff]
    constructor
    · intro h mk hmk
      by_contra hmem
      exact h mk hmk ((eqIndices_eq_nil_iff g mk).mpr hmem)
    · intro h mk hmk hnil
      exact (eqIndices_eq_nil_iff g mk).mp hnil (h mk hmk)
  · rintro cs st' ⟨mk, hmk, hmem⟩
    have herr : captureCell.run st' = .error "IndexError: list index out of range" := by
      have := captureMarkers_err st'.genes st'.sparse markers
        ⟨mk, hmk, (eqIndices_eq_nil_iff st'.genes mk).mpr hmem⟩
      simp [captureCell, this, Except.map]
    rw [runCells_cons_err herr]
    rfl

/-- A notebook state whose gene series misses the markers. -/
def stBadW : NBState := ⟨⟨[], [], [], [], [], none, none⟩, ["GENE1"], [], [], []⟩

/-- Witness for C10: at a state whose gene series lacks ACE2, the capture
cell aborts the run with the IndexError. -/
theorem spec_c10_witness :
    runCells [captureCell] stBadW =
      (.error "IndexError: list index out of range", []) :=
  spec_c10.2.2 [] stBadW ⟨"ACE2", by decide, by decide⟩

end HLCA
